import Mathlib

/-
Verification of the gallery-lightbox navigation logic of the makeup-portfolio
repository. The definitions below are shallow embeddings of the TypeScript
sources:
  - PortfolioLightbox.tsx : the full-featured lightbox (navigation state,
    keyboard handler, touch-swipe handler);
  - EnhancedLightbox.tsx  : the simple lightbox (render guard and current-image
    lookup);
  - PortfolioMosaic.tsx   : the lightbox open/close state owner;
  - the portfolio card sliders (multi-image cards with touch swipe).
JavaScript numbers are modelled as Int; nullable numbers as Option Int;
JavaScript array indexing (undefined off either end) as an Option lookup.
-/

/-- Image descriptor: the `PortfolioImage` interface shared by
PortfolioLightbox.tsx and EnhancedLightbox.tsx (src, alt, optional caption and
description). -/
structure PortfolioImage where
  src : String
  alt : String
  caption : Option String := none
  description : Option String := none
deriving DecidableEq

/-- Component state of PortfolioLightbox: the `isOpen`/`images` props together
with the `currentIndex`, `isZoomed` and `showThumbnails` useState cells. -/
structure LightboxState where
  isOpen : Bool
  images : List PortfolioImage
  currentIndex : Int
  isZoomed : Bool
  showThumbnails : Bool
deriving DecidableEq

/-- `goToPrevious` of PortfolioLightbox.tsx: wrap-around decrement of
`currentIndex` (index 0 wraps to `images.length - 1`), and `setIsZoomed(false)`. -/
def goToPrevious (s : LightboxState) : LightboxState :=
  { s with
    currentIndex :=
      if s.currentIndex = 0 then (s.images.length : Int) - 1 else s.currentIndex - 1,
    isZoomed := false }

/-- `goToNext` of PortfolioLightbox.tsx: wrap-around increment of
`currentIndex` (index `images.length - 1` wraps to 0), and `setIsZoomed(false)`. -/
def goToNext (s : LightboxState) : LightboxState :=
  { s with
    currentIndex :=
      if s.currentIndex = (s.images.length : Int) - 1 then 0 else s.currentIndex + 1,
    isZoomed := false }

/-- `goToImage` of PortfolioLightbox.tsx: `setCurrentIndex(index)` and
`setIsZoomed(false)` — the index is stored as given, with no bounds check. -/
def goToImage (i : Int) (s : LightboxState) : LightboxState :=
  { s with currentIndex := i, isZoomed := false }

/-- `toggleZoom` of PortfolioLightbox.tsx: `setIsZoomed(!isZoomed)`. -/
def toggleZoom (s : LightboxState) : LightboxState :=
  { s with isZoomed := !s.isZoomed }

/-- The `t`/`T` branch of the keyboard handler of PortfolioLightbox.tsx:
`setShowThumbnails(!showThumbnails)`. -/
def toggleThumbnails (s : LightboxState) : LightboxState :=
  { s with showThumbnails := !s.showThumbnails }

/-- `handleKeyDown` of PortfolioLightbox.tsx. The handler begins with
`if (!isOpen) return;` and then switches on `e.key`. The Bool component of the
result records whether the `onClose` callback was invoked (the `Escape` case). -/
def handleKeyDown (s : LightboxState) (key : String) : LightboxState × Bool :=
  if !s.isOpen then (s, false)
  else if key = "Escape" then (s, true)
  else if key = "ArrowLeft" then (goToPrevious s, false)
  else if key = "ArrowRight" then (goToNext s, false)
  else if key = "z" ∨ key = "Z" then (toggleZoom s, false)
  else if key = "t" ∨ key = "T" then (toggleThumbnails s, false)
  else (s, false)

/-- Whether the global keydown listener of PortfolioLightbox.tsx is installed
once the keyboard effect for a given `isOpen` value has settled: the effect
adds the listener only when `isOpen` is true, and its cleanup removes it. -/
def keydownListenerActive (isOpen : Bool) : Bool := isOpen

/-- Navigation commands emitted by the touch handlers (calls to `goToNext` /
`goToPrevious`). -/
inductive NavCommand where
  | next
  | previous
deriving DecidableEq

/-- The `swipeThreshold` constant (50) of `handleTouchEnd` in
PortfolioLightbox.tsx. -/
def swipeThreshold : Int := 50

/-- `handleTouchEnd` of PortfolioLightbox.tsx, as the list of navigation
commands it emits for recorded start/end screenX coordinates: swipe left
(start − end > 50) emits next, swipe right (end − start > 50) emits previous,
otherwise nothing; the two tests are an if/else-if chain. -/
def handleTouchEnd (touchStartX touchEndX : Int) : List NavCommand :=
  if touchStartX - touchEndX > swipeThreshold then [NavCommand.next]
  else if touchEndX - touchStartX > swipeThreshold then [NavCommand.previous]
  else []

/-- JavaScript falsiness of a nullable number: `!x` is true when `x` is null
or exactly 0. This is the test `!touchStart || !touchEnd` applies to each
coordinate in the card sliders. -/
def jsFalsy : Option Int → Bool
  | none => true
  | some x => x == 0

/-- The `minSwipeDistance` constant (50) of the card sliders. -/
def minSwipeDistance : Int := 50

/-- `onTouchEnd` of the portfolio card sliders (PortfolioCard and the enhanced
card), as the list of navigation commands it emits. The handler first returns
when either recorded coordinate is falsy (`!touchStart || !touchEnd`), then
computes `distance = touchStart - touchEnd` and runs two independent `if`
statements guarded by `hasMultipleImages`. -/
def onTouchEnd (touchStart touchEnd : Option Int) (hasMultipleImages : Bool) :
    List NavCommand :=
  if jsFalsy touchStart || jsFalsy touchEnd then []
  else
    (if minSwipeDistance < touchStart.getD 0 - touchEnd.getD 0 ∧ hasMultipleImages then
        [NavCommand.next]
      else []) ++
      (if touchStart.getD 0 - touchEnd.getD 0 < -minSwipeDistance ∧ hasMultipleImages then
        [NavCommand.previous]
      else [])

/-- Lightbox state owned by PortfolioMosaic.tsx (the `lightbox` useState cell:
isOpen, images, currentIndex, title, description). -/
structure MosaicLightbox where
  isOpen : Bool
  images : List PortfolioImage
  currentIndex : Int
  title : String
  description : String
deriving DecidableEq

/-- `openLightbox` of PortfolioMosaic.tsx: `setLightbox` replaces the whole
state with `isOpen: true` and the given images, index, title and description —
there is no emptiness or range check. -/
def openLightbox (images : List PortfolioImage) (index : Int)
    (title description : String) : MosaicLightbox :=
  { isOpen := true, images := images, currentIndex := index,
    title := title, description := description }

/-- `closeLightbox` of PortfolioMosaic.tsx: clears only the `isOpen` flag. -/
def closeLightbox (prev : MosaicLightbox) : MosaicLightbox :=
  { prev with isOpen := false }

/-- JavaScript array indexing `arr[i]`: yields the element for `0 ≤ i < length`
and `undefined` (none) for any other index, negative included. -/
def jsIndex (l : List PortfolioImage) (i : Int) : Option PortfolioImage :=
  if 0 ≤ i then l.get? i.toNat else none

/-- The render guard and current-image lookup of EnhancedLightbox.tsx:
`if (!isOpen || images.length === 0) return null;` followed by
`const currentImage = images[currentIndex];`. Returns none when the component
renders null, otherwise the (unguarded) result of the index lookup. -/
def enhancedLightboxRender (isOpen : Bool) (images : List PortfolioImage)
    (currentIndex : Int) : Option (Option PortfolioImage) :=
  if isOpen = false ∨ images.length = 0 then none
  else some (jsIndex images currentIndex)

/-- A concrete three-image gallery used to evaluate the model. -/
def sampleImages : List PortfolioImage :=
  [{ src := "a.jpg", alt := "first" },
   { src := "b.jpg", alt := "second" },
   { src := "c.jpg", alt := "third" }]

/-- An open lightbox session on the three-image gallery, positioned at index 0. -/
def c1State : LightboxState :=
  { isOpen := true, images := sampleImages, currentIndex := 0,
    isZoomed := false, showThumbnails := false }

/-- A closed lightbox session (isOpen = false). -/
def closedState : LightboxState :=
  { isOpen := false, images := sampleImages, currentIndex := 0,
    isZoomed := false, showThumbnails := false }

/- Projection lemmas for the navigation transitions. -/

theorem goToNext_images (s : LightboxState) : (goToNext s).images = s.images := rfl

theorem goToNext_currentIndex (s : LightboxState) :
    (goToNext s).currentIndex =
      if s.currentIndex = (s.images.length : Int) - 1 then 0 else s.currentIndex + 1 := rfl

theorem goToPrevious_images (s : LightboxState) :
    (goToPrevious s).images = s.images := rfl

theorem goToPrevious_currentIndex (s : LightboxState) :
    (goToPrevious s).currentIndex =
      if s.currentIndex = 0 then (s.images.length : Int) - 1 else s.currentIndex - 1 := rfl

/-- Wrap-around increment as a modulus, for an in-range index. -/
theorem nextIndex_eq_emod (j N : Int) (h0 : 0 ≤ j) (h1 : j < N) :
    (if j = N - 1 then 0 else j + 1) = (j + 1) % N := by
  split_ifs with h
  · rw [h, sub_add_cancel, Int.emod_self]
  · exact (Int.emod_eq_of_lt (by omega) (by omega)).symm

/-- Adding one commutes with the modulus. -/
theorem emod_succ_eq (a N : Int) : (a % N + 1) % N = (a + 1) % N := by
  rw [Int.add_emod, Int.emod_emod_of_dvd a dvd_rfl, ← Int.add_emod]

/-- Iterating `goToNext` keeps the image list fixed and advances the index by
the iteration count modulo the gallery size. -/
theorem goToNext_iterate_spec (k : Nat) (s : LightboxState)
    (h0 : 0 ≤ s.currentIndex) (h1 : s.currentIndex < (s.images.length : Int)) :
    (goToNext^[k] s).images = s.images ∧
      (goToNext^[k] s).currentIndex =
        (s.currentIndex + k) % (s.images.length : Int) := by
  have hN : 0 < (s.images.length : Int) := lt_of_le_of_lt h0 h1
  induction k with
  | zero =>
    refine ⟨rfl, ?_⟩
    simpa using (Int.emod_eq_of_lt h0 h1).symm
  | succ k ih =>
    obtain ⟨him, hidx⟩ := ih
    have hj0 : 0 ≤ (s.currentIndex + k) % (s.images.length : Int) :=
      Int.emod_nonneg _ (by omega)
    have hj1 : (s.currentIndex + k) % (s.images.length : Int) < (s.images.length : Int) :=
      Int.emod_lt_of_pos _ hN
    rw [Function.iterate_succ_apply']
    refine ⟨by rw [goToNext_images, him], ?_⟩
    rw [goToNext_currentIndex, him, hidx]
    rw [nextIndex_eq_emod _ _ hj0 hj1, emod_succ_eq]
    push_cast
    rw [add_assoc]

/-- C1 counterexample: jumping to index 5 in a three-image gallery is not
rejected — `goToImage` changes `currentIndex` even though 5 is out of range,
so an out-of-range JumpTo does not leave the state unchanged. -/
theorem jumpTo_out_of_range_changes_index :
    ((c1State.images.length : Int) ≤ 5 ∨ (5 : Int) < 0) ∧
      (goToImage 5 c1State).currentIndex ≠ c1State.currentIndex := by
  decide

/-- C1 (amended): `goToImage i` always succeeds: it sets `currentIndex` to `i`
verbatim for every `i`, in range or not (neither rejected nor clamped), resets
`isZoomed`, and leaves the image list and the open flag alone. -/
theorem goToImage_sets_index_unconditionally (s : LightboxState) (i : Int) :
    (goToImage i s).currentIndex = i ∧ (goToImage i s).isZoomed = false ∧
      (goToImage i s).images = s.images ∧ (goToImage i s).isOpen = s.isOpen :=
  ⟨rfl, rfl, rfl, rfl⟩

/-- C2 counterexample: `openLightbox` applied to the empty image list sets
`isOpen` to true, not false — opening with an empty set is not rejected. -/
theorem openLightbox_empty_sets_isOpen_true :
    ¬((openLightbox [] 0 "Portfolio Showcase" "demo").isOpen = false) := by
  decide

/-- C2 (amended): opening with an empty image array does not fail: the state
becomes open (`isOpen = true`); the empty set is handled only by the render
guard of EnhancedLightbox, which renders null whenever the list is empty, so
the opened-but-empty session never shows a visible lightbox. -/
theorem open_empty_not_rejected_render_guard (i : Int) (t d : String) :
    (openLightbox [] i t d).isOpen = true ∧
      enhancedLightboxRender (openLightbox [] i t d).isOpen
        (openLightbox [] i t d).images (openLightbox [] i t d).currentIndex = none :=
  ⟨rfl, rfl⟩

/-- C3 counterexample: from the in-range state at index 0 of three images,
`goToImage 5` yields a state whose index is not below the gallery size — the
index invariant is not preserved by every public operation. -/
theorem goToImage_breaks_index_invariant :
    (0 ≤ c1State.currentIndex ∧ c1State.currentIndex < (c1State.images.length : Int)) ∧
      ¬((goToImage 5 c1State).currentIndex <
          ((goToImage 5 c1State).images.length : Int)) := by
  decide

/-- C3 (amended): the invariant `0 ≤ currentIndex < length` is preserved by
Next and Previous (wrap-around), but JumpTo and the external index update copy
an arbitrary index with no validation, so out-of-range states are reachable
through them. -/
theorem next_previous_preserve_index_invariant (s : LightboxState)
    (h0 : 0 ≤ s.currentIndex) (h1 : s.currentIndex < (s.images.length : Int)) :
    (0 ≤ (goToNext s).currentIndex ∧
        (goToNext s).currentIndex < ((goToNext s).images.length : Int)) ∧
      (0 ≤ (goToPrevious s).currentIndex ∧
        (goToPrevious s).currentIndex < ((goToPrevious s).images.length : Int)) := by
  rw [goToNext_currentIndex, goToNext_images, goToPrevious_currentIndex,
    goToPrevious_images]
  refine ⟨⟨?_, ?_⟩, ?_, ?_⟩ <;> (split_ifs <;> omega)

theorem next_previous_preserve_index_invariant_witness :
    (0 ≤ (goToNext c1State).currentIndex ∧
        (goToNext c1State).currentIndex < ((goToNext c1State).images.length : Int)) ∧
      (0 ≤ (goToPrevious c1State).currentIndex ∧
        (goToPrevious c1State).currentIndex <
          ((goToPrevious c1State).images.length : Int)) :=
  next_previous_preserve_index_invariant c1State (by decide) (by decide)

/-- C4: every navigation transition — `goToNext`, `goToPrevious`, `goToImage`
— resets `isZoomed` to false, regardless of its prior value. -/
theorem navigation_resets_zoom (s : LightboxState) (i : Int) :
    (goToNext s).isZoomed = false ∧ (goToPrevious s).isZoomed = false ∧
      (goToImage i s).isZoomed = false :=
  ⟨rfl, rfl, rfl⟩

/-- C5: cycle closure — from any in-range starting index of a non-empty
gallery, applying `goToNext` once per image returns `currentIndex` to the
start; with a single image this instantiates to a single Next being a no-op. -/
theorem next_cycle_closure (s : LightboxState) (hN : 0 < s.images.length)
    (h0 : 0 ≤ s.currentIndex) (h1 : s.currentIndex < (s.images.length : Int)) :
    (goToNext^[s.images.length] s).currentIndex = s.currentIndex := by
  obtain ⟨-, hidx⟩ := goToNext_iterate_spec s.images.length s h0 h1
  rw [hidx]
  have h2 := Int.add_mul_emod_self_left (a := s.currentIndex)
    (b := (s.images.length : Int)) (c := 1)
  rw [mul_one] at h2
  rw [h2, Int.emod_eq_of_lt h0 h1]

theorem next_cycle_closure_witness :
    (goToNext^[c1State.images.length] c1State).currentIndex = c1State.currentIndex :=
  next_cycle_closure c1State (by decide) (by decide) (by decide)

/-- C6: `goToPrevious` undoes `goToNext` — for any state whose index is in
range for its (non-empty) image list, Next then Previous restores the original
`currentIndex`. -/
theorem previous_inverse_of_next (s : LightboxState)
    (h0 : 0 ≤ s.currentIndex) (h1 : s.currentIndex < (s.images.length : Int)) :
    (goToPrevious (goToNext s)).currentIndex = s.currentIndex := by
  rw [goToPrevious_currentIndex, goToNext_images, goToNext_currentIndex]
  split_ifs <;> omega

theorem previous_inverse_of_next_witness :
    (goToPrevious (goToNext c1State)).currentIndex = c1State.currentIndex :=
  previous_inverse_of_next c1State (by decide) (by decide)

/-- C7: on a closed session every keyboard command is rejected — the handler
returns early with the state unchanged and without invoking `onClose` (the
rejection the error taxonomy calls InvalidCommandWhileClosed), and the global
keydown listener is not installed while the session is closed. -/
theorem closed_session_rejects_commands (s : LightboxState) (key : String)
    (h : s.isOpen = false) :
    handleKeyDown s key = (s, false) ∧ keydownListenerActive s.isOpen = false := by
  constructor
  · unfold handleKeyDown
    rw [h]
    simp
  · rw [h]
    rfl

theorem closed_session_rejects_commands_witness :
    handleKeyDown closedState "ArrowRight" = (closedState, false) ∧
      keydownListenerActive closedState.isOpen = false :=
  closed_session_rejects_commands closedState "ArrowRight" rfl

/-- C8 counterexample: on a multi-image card, a completed gesture from x = 60
to x = 0 has a leftward displacement of 60 — above the threshold — yet the
card slider emits no command, because the end coordinate 0 is falsy. -/
theorem card_swipe_zero_coordinate_drops_command :
    onTouchEnd (some 60) (some 0) true = [] ∧ swipeThreshold < 60 - 0 := by
  decide

/-- C8 (amended): the lightbox touch handler satisfies the property for every
gesture: displacement within the threshold emits nothing, a leftward
(rightward) displacement above the threshold emits exactly one next (previous),
and no gesture emits more than one command. The card sliders also emit at most
one command per gesture, and emit their single next/previous only when both
recorded coordinates are non-falsy (non-zero) and the card has more than one
image; within-threshold displacements emit nothing there as well. -/
theorem swipe_classification_amended (ts te : Int) (os oe : Option Int)
    (multi : Bool) :
    ((ts - te ≤ swipeThreshold ∧ te - ts ≤ swipeThreshold) → handleTouchEnd ts te = []) ∧
      (swipeThreshold < ts - te → handleTouchEnd ts te = [NavCommand.next]) ∧
      (swipeThreshold < te - ts → handleTouchEnd ts te = [NavCommand.previous]) ∧
      (handleTouchEnd ts te).length ≤ 1 ∧
      (onTouchEnd os oe multi).length ≤ 1 ∧
      (jsFalsy os = false → jsFalsy oe = false → multi = true →
        minSwipeDistance < os.getD 0 - oe.getD 0 →
        onTouchEnd os oe multi = [NavCommand.next]) ∧
      (jsFalsy os = false → jsFalsy oe = false → multi = true →
        os.getD 0 - oe.getD 0 < -minSwipeDistance →
        onTouchEnd os oe multi = [NavCommand.previous]) ∧
      ((os.getD 0 - oe.getD 0 ≤ minSwipeDistance ∧
          -minSwipeDistance ≤ os.getD 0 - oe.getD 0) →
        onTouchEnd os oe multi = []) := by
  refine ⟨?_, ?_, ?_, ?_, ?_, ?_, ?_, ?_⟩
  · rintro ⟨h1, h2⟩
    simp only [swipeThreshold] at h1 h2
    simp only [handleTouchEnd, swipeThreshold]
    split_ifs with ha hb
    · exact absurd ha (by omega)
    · exact absurd hb (by omega)
    · rfl
  · intro h
    simp only [swipeThreshold] at h
    simp only [handleTouchEnd, swipeThreshold]
    rw [if_pos (by omega)]
  · intro h
    simp only [swipeThreshold] at h
    simp only [handleTouchEnd, swipeThreshold]
    rw [if_neg (by omega), if_pos (by omega)]
  · simp only [handleTouchEnd]
    split_ifs <;> simp
  · simp only [onTouchEnd]
    split_ifs with hg ha hb hb
    · simp
    · obtain ⟨ha1, -⟩ := ha
      obtain ⟨hb1, -⟩ := hb
      exfalso
      simp only [minSwipeDistance] at ha1 hb1
      omega
    · simp
    · simp
    · simp
  · intro hos hoe hm hd
    simp only [minSwipeDistance] at hd
    simp only [onTouchEnd, hos, hoe, hm, minSwipeDistance, Bool.or_self,
      Bool.false_or, if_false]
    rw [if_neg (by simp [hos, hoe])]
    rw [if_pos (by exact ⟨by omega, by trivial⟩), if_neg (by rintro ⟨hx, -⟩; omega)]
    simp
  · intro hos hoe hm hd
    simp only [minSwipeDistance] at hd
    simp only [onTouchEnd, hos, hoe, hm, minSwipeDistance, Bool.or_self,
      Bool.false_or, if_false]
    rw [if_neg (by simp [hos, hoe])]
    rw [if_neg (by rintro ⟨hx, -⟩; omega), if_pos (by exact ⟨by omega, by trivial⟩)]
    simp
  · rintro ⟨h1, h2⟩
    simp only [minSwipeDistance] at h1 h2
    simp only [onTouchEnd, minSwipeDistance]
    split_ifs with hg ha hb hb
    · rfl
    · obtain ⟨ha1, -⟩ := ha
      exact absurd ha1 (by omega)
    · obtain ⟨ha1, -⟩ := ha
      exact absurd ha1 (by omega)
    · obtain ⟨hb1, -⟩ := hb
      exact absurd hb1 (by omega)
    · rfl

theorem swipe_classification_amended_witness :
    handleTouchEnd 30 0 = [] ∧ handleTouchEnd 60 0 = [NavCommand.next] ∧
      handleTouchEnd 0 60 = [NavCommand.previous] ∧
      onTouchEnd (some 60) (some 1) true = [NavCommand.next] ∧
      onTouchEnd (some 1) (some 60) true = [NavCommand.previous] ∧
      onTouchEnd (some 31) (some 1) true = [] :=
  ⟨(swipe_classification_amended 30 0 none none false).1 (by decide),
   (swipe_classification_amended 60 0 none none false).2.1 (by decide),
   (swipe_classification_amended 0 60 none none false).2.2.1 (by decide),
   (swipe_classification_amended 0 0 (some 60) (some 1) true).2.2.2.2.2.1
     (by decide) (by decide) rfl (by decide),
   (swipe_classification_amended 0 0 (some 1) (some 60) true).2.2.2.2.2.2.1
     (by decide) (by decide) rfl (by decide),
   (swipe_classification_amended 0 0 (some 31) (some 1) true).2.2.2.2.2.2.2
     (by decide)⟩

/-- C9: in EnhancedLightbox, once the guard passes (open, non-empty images),
the current image is read by unguarded indexing: for any index outside
[0, length-1] the component still renders, but the lookup yields no image
descriptor (undefined), so the subsequent src/alt accesses have no value. -/
theorem enhanced_lightbox_unguarded_index (images : List PortfolioImage) (i : Int)
    (h1 : images ≠ []) (h2 : i < 0 ∨ (images.length : Int) ≤ i) :
    enhancedLightboxRender true images i = some none := by
  unfold enhancedLightboxRender
  rw [if_neg (by simp [List.length_eq_zero, h1])]
  unfold jsIndex
  rcases h2 with h2 | h2
  · rw [if_neg (by omega)]
  · rw [if_pos (by omega)]
    have hlen : images.length ≤ i.toNat := by omega
    rw [List.get?_eq_none.mpr hlen]

theorem enhanced_lightbox_unguarded_index_witness :
    enhancedLightboxRender true sampleImages 5 = some none :=
  enhanced_lightbox_unguarded_index sampleImages 5 (by decide) (by decide)

/-- C10: in the card sliders, a recorded touch coordinate of exactly 0 is
treated like an absent (null) coordinate by the `!touchStart || !touchEnd`
guard, so such a gesture never emits a navigation command, no matter how large
the displacement. -/
theorem card_swipe_zero_treated_as_absent (x : Int) (multi : Bool) :
    onTouchEnd (some 0) (some x) multi = [] ∧
      onTouchEnd (some x) (some 0) multi = [] ∧
      jsFalsy (some 0) = jsFalsy none := by
  refine ⟨?_, ?_, rfl⟩
  · simp [onTouchEnd, jsFalsy]
  · simp [onTouchEnd, jsFalsy]
